import Mathlib

/-
Verification of the binance-crypto-db capture pipeline.

Shallow embedding of the core subsystems: the rotating weekly storage pool
(crates/storage/src/db.rs), the symbol cache (crates/storage/src/symbol_manager.rs
and data_manager.rs), the supervisor (crates/executor/src/actors/supervisor.rs),
the batched per-stream writers (crates/market_data/src/services/...), the
websocket gateway read loop (market_gateway.rs), the order-book level packing
(remote/orderbook_response.rs) and the open-interest poller (remote/binance_poller.rs).

Timestamps are modelled as whole seconds since the Unix epoch (Int); machine
integers that never overflow in the modelled ranges are Nat or Int.
-/

/- ===== Calendar arithmetic (chrono ISO-8601 week dates) =====

`chrono::Datelike::iso_week` follows the ISO-8601 week-date rules: weeks run
Monday to Sunday and the week-year of a day is the calendar year of that
week's Thursday.  The civil-date conversions below are the standard
Hinnant-style algorithms on days since 1970-01-01. -/

/-- Days since the epoch of the civil date (y, m, d), months 1..12, days 1..31. -/
def daysFromCivil (y0 : Int) (m d : Nat) : Int :=
  let y : Int := if m ≤ 2 then y0 - 1 else y0
  let era : Int := (if 0 ≤ y then y else y - 399) / 400
  let yoe : Nat := (y - era * 400).toNat
  let doy : Nat := (153 * (if 2 < m then m - 3 else m + 9) + 2) / 5 + d - 1
  let doe : Nat := yoe * 365 + yoe / 4 - yoe / 100 + doy
  era * 146097 + (doe : Int) - 719468

/-- Civil date (y, m, d) of a count of days since the epoch. -/
def civilFromDays (z0 : Int) : Int × Nat × Nat :=
  let z : Int := z0 + 719468
  let era : Int := (if 0 ≤ z then z else z - 146096) / 146097
  let doe : Nat := (z - era * 146097).toNat
  let yoe : Nat := (doe - doe / 1460 + doe / 36524 - doe / 146096) / 365
  let y : Int := (yoe : Int) + era * 400
  let doy : Nat := doe - (365 * yoe + yoe / 4 - yoe / 100)
  let mp : Nat := (5 * doy + 2) / 153
  let d : Nat := doy - (153 * mp + 2) / 5 + 1
  let m : Nat := if mp < 10 then mp + 3 else mp - 9
  (if m ≤ 2 then y + 1 else y, m, d)

/-- ISO weekday of a day count, Monday = 1 .. Sunday = 7 (1970-01-01 was a Thursday). -/
def isoWeekday (z : Int) : Nat :=
  ((z + 3).emod 7).toNat + 1

/-- ISO (week-year, week number) of a day count: the week-year is the calendar
year of the week's Thursday, and the week number is one more than the number of
whole weeks between that Thursday and January 1 of the week-year. -/
def isoWeekOfDay (z : Int) : Int × Nat :=
  let thursday : Int := z + 4 - (isoWeekday z : Int)
  let y : Int := (civilFromDays thursday).1
  let jan1 : Int := daysFromCivil y 1 1
  (y, (thursday - jan1).toNat / 7 + 1)

/-- Embeds `get_date_components` (storage/src/db.rs): the ISO (year, week) of a
UTC timestamp, the date being the floor of the timestamp in whole days. -/
def get_date_components (t : Int) : Int × Nat :=
  isoWeekOfDay (t.ediv 86400)

/-- Embeds `get_previous_iso_week_components` (storage/src/db.rs): subtracts
`Duration::weeks(1)` (exactly 604800 seconds) and takes the ISO components. -/
def get_previous_iso_week_components (t : Int) : Int × Nat :=
  get_date_components (t - 604800)

/-- Noon UTC on 29 December 2025, the timestamp of the concrete scenario. -/
def tsDec29Noon : Int := daysFromCivil 2025 12 29 * 86400 + 43200

/- ===== Rotating storage pool (crates/storage/src/db.rs) =====

`RotatingPool` guards a pair `(packed week key, pool)` with an `RwLock`.
`get_pool` first takes the read lock and compares the stored packed key with
the wall-clock packed key; on a match it returns `(pool.clone(), false)`.
Otherwise it releases the read lock, takes the write lock, re-checks the key,
installs a fresh pool if the key is still stale (also emitting one
`ControlMessage::Spawn` for the backup actor through `try_send`), and returns
`(write.1.clone(), true)` - the `true` is returned on the slow path whether or
not the re-check found the key already refreshed by another caller.

Pool handles are modelled by numeric identities: `poolId` is the currently
installed pool and `nextPoolId` is the identity the next `get_weekly_pool`
call would create, so distinct creations yield distinct handles.  `spawns`
counts the backup-actor spawn requests accepted by the supervisor channel. -/

structure PoolState where
  storedPacked : Nat
  poolId : Nat
  nextPoolId : Nat
  spawns : Nat
deriving DecidableEq, Repr

/-- Embeds `RotatingPool::current_packed`: `(year as u32) << 6 | (week & 0x3f)`
for the ISO components of the wall clock. -/
def current_packed (t : Int) : Nat :=
  ((get_date_components t).1.toNat <<< 6) ||| ((get_date_components t).2 &&& 0x3f)

/-- The read-lock phase of `get_pool` (db.rs lines 49-55): under the shared
lock, compare the stored key with the wall-clock key; on a match return the
cloned handle with `rotated = false`, otherwise release the lock and fall
through to the write phase. -/
def readPhase (s : PoolState) (t : Int) : Option (Nat × Bool) :=
  if s.storedPacked = current_packed t then some (s.poolId, false) else none

/-- The write-lock phase of `get_pool` (db.rs lines 57-74): re-check the key
under the exclusive lock; if still stale, create a fresh weekly pool, install
it and request the backup-actor spawn; in both cases return the handle now
installed together with `rotated = true`. -/
def writePhase (s : PoolState) (t : Int) : PoolState × Nat × Bool :=
  if s.storedPacked ≠ current_packed t then
    let s2 : PoolState :=
      { storedPacked := current_packed t
        poolId := s.nextPoolId
        nextPoolId := s.nextPoolId + 1
        spawns := s.spawns + 1 }
    (s2, s2.poolId, true)
  else
    (s, s.poolId, true)

/-- Embeds `RotatingPool::get_pool` as one atomic step (no interleaving
between the two phases).  Interleaved executions are obtained by running the
phases of different calls in any order consistent with the lock. -/
def get_pool (s : PoolState) (t : Int) : PoolState × Nat × Bool :=
  match readPhase s t with
  | some (p, r) => (s, p, r)
  | none => writePhase s t

/- ===== Symbol cache (crates/storage/src/symbol_manager.rs, data_manager.rs) =====

`SymbolManager` keeps `cache : HashMap<String, i64>` behind a mutex.
`get_or_create_id` returns a cached id when present; on a miss it reads the
`symbols` table of the handed pool, inserting the row if absent, and then
populates the cache.  `clear_cache` empties the map.  `DataManager` owns one
`RotatingPool` and one `SymbolManager`; partitions are modelled by the map
`tables` from pool identity to the rows of that partition's `symbols` table
(a fresh partition starts with no rows). -/

def lookupAssoc {α : Type} (key : String) : List (String × α) → Option α
  | [] => none
  | (k, v) :: rest => if k = key then some v else lookupAssoc key rest

def insertAssoc {α : Type} (key : String) (v : α) : List (String × α) → List (String × α)
  | [] => [(key, v)]
  | (k, w) :: rest => if k = key then (k, v) :: rest else (k, w) :: insertAssoc key v rest

structure DMState where
  rot : PoolState
  cache : List (String × Nat)
  tables : List (Nat × List (String × Nat))
deriving DecidableEq, Repr

/-- The `symbols` rows of the partition with pool identity `pid`; a partition
never yet written to has no rows beyond the schema. -/
def tableOf (st : DMState) (pid : Nat) : List (String × Nat) :=
  match st.tables.lookup pid with
  | some rows => rows
  | none => []

def setTable (st : DMState) (pid : Nat) (rows : List (String × Nat)) : DMState :=
  { st with tables := (pid, rows) :: st.tables.filter (fun e => e.1 ≠ pid) }

/-- Embeds `SymbolManager::get_or_create_id` (symbol_manager.rs lines 18-53):
cache hit returns the cached id with no database access; on a miss, `SELECT id
FROM symbols WHERE ticker = ?` against the handed pool, then `INSERT ...
RETURNING id` when absent (the fresh rowid is one more than the row count),
commit, and populate the cache. -/
def get_or_create_id (st : DMState) (pid : Nat) (symbol : String) : DMState × Nat :=
  match lookupAssoc symbol st.cache with
  | some id => (st, id)
  | none =>
    let rows := tableOf st pid
    match lookupAssoc symbol rows with
    | some id => ({ st with cache := insertAssoc symbol id st.cache }, id)
    | none =>
      let id := rows.length + 1
      let st2 := setTable st pid (rows ++ [(symbol, id)])
      ({ st2 with cache := insertAssoc symbol id st2.cache }, id)

/-- Embeds `SymbolManager::clear_cache` (symbol_manager.rs lines 55-58).  No
call site of this operation exists anywhere in the repository. -/
def clear_cache (st : DMState) : DMState :=
  { st with cache := [] }

/-- Embeds `DataManager::get_symbol_id` (data_manager.rs lines 24-33): obtains
the current pool via `get_pool` - the rotated flag is bound to `_` and
discarded, and the cache is not cleared - then resolves the ticker through
`get_or_create_id` on that pool. -/
def get_symbol_id (st : DMState) (t : Int) (ticker : String) : DMState × Nat :=
  let r := get_pool st.rot t
  let st1 : DMState := { st with rot := r.1 }
  get_or_create_id st1 r.2.1 ticker

/- ===== Supervisor (crates/executor/src/actors/supervisor.rs) =====

State: factories registered per `ActorType`, and three tables keyed by actor
id (a `Uuid`, modelled as Nat): `pulses` (last heartbeat instant), `handles`
(live task handles) and `actor_types`.  The main loop selects between the
inbound control channel and a 1-second liveness tick with a 3-second timeout.
Instants are whole seconds (Nat). -/

inductive SupActorType where
  | AggTradeActor
  | KlinesActor
  | OrderBookActor
  | GatewayActor
  | MarkPriceActor
  | ForceOrderActor
  | Dynamic
deriving DecidableEq, Repr

inductive ControlMsg where
  | Spawn (id : Nat)
  | Heartbeat (id : Nat)
  | Shutdown (id : Nat)
  | Error (id : Nat) (msg : String)
deriving DecidableEq, Repr

/-- Side effects the supervisor performs on the runtime while handling work:
spawning a task for an actor id, or aborting the handle of an actor id. -/
inductive SupAction where
  | spawnTask (id : Nat)
  | abortHandle (id : Nat)
deriving DecidableEq, Repr

def lookupNat {α : Type} (key : Nat) : List (Nat × α) → Option α
  | [] => none
  | (k, v) :: rest => if k = key then some v else lookupNat key rest

def insertNat {α : Type} (key : Nat) (v : α) : List (Nat × α) → List (Nat × α)
  | [] => [(key, v)]
  | (k, w) :: rest => if k = key then (k, v) :: rest else (k, w) :: insertNat key v rest

def removeNat {α : Type} (key : Nat) : List (Nat × α) → List (Nat × α)
  | [] => []
  | (k, w) :: rest => if k = key then rest else (k, w) :: removeNat key rest

structure SupState where
  factories : List SupActorType
  pulses : List (Nat × Nat)
  handles : List (Nat × Unit)
  actorTypes : List (Nat × SupActorType)
  nextId : Nat
deriving DecidableEq, Repr

def supInit : SupState :=
  { factories := [], pulses := [], handles := [], actorTypes := [], nextId := 100 }

/-- Embeds `Supervisor::spawn_actor` (supervisor.rs lines 131-142): build a
fresh actor from the factory (fresh `Uuid` modelled by `nextId`), spawn its
task, and record type, handle and pulse. -/
def spawn_actor (s : SupState) (t : SupActorType) (now : Nat) : SupState × SupAction :=
  let id := s.nextId
  ({ s with
      actorTypes := insertNat id t s.actorTypes
      handles := insertNat id () s.handles
      pulses := insertNat id now s.pulses
      nextId := s.nextId + 1 },
   SupAction.spawnTask id)

/-- Embeds the inbound-message arm of the supervisor main loop (supervisor.rs
lines 66-97).  `Spawn` records the already-built actor under type `Dynamic`;
`Heartbeat` and `Error` insert the current instant into `pulses`
unconditionally; `Shutdown` removes the id from all three tables and aborts
the handle when one is present. -/
def handleMsg (s : SupState) (now : Nat) : ControlMsg → SupState × List SupAction
  | ControlMsg.Spawn id =>
    ({ s with
        handles := insertNat id () s.handles
        actorTypes := insertNat id SupActorType.Dynamic s.actorTypes
        pulses := insertNat id now s.pulses },
     [SupAction.spawnTask id])
  | ControlMsg.Heartbeat id =>
    ({ s with pulses := insertNat id now s.pulses }, [])
  | ControlMsg.Shutdown id =>
    ({ s with
        pulses := removeNat id s.pulses
        actorTypes := removeNat id s.actorTypes
        handles := removeNat id s.handles },
     match lookupNat id s.handles with
     | some _ => [SupAction.abortHandle id]
     | none => [])
  | ControlMsg.Error id _ =>
    ({ s with pulses := insertNat id now s.pulses }, [])

/-- The per-expired-actor body of the liveness tick (supervisor.rs lines
114-125): `self.actor_types[&invalid_id]` is a direct `HashMap` index and
panics when the key is absent; otherwise a registered type is respawned and
the id is dropped from all tables. -/
def reapDead (now : Nat) : SupState → List Nat → Except String SupState
  | s, [] => Except.ok s
  | s, id :: rest =>
    match lookupNat id s.actorTypes with
    | none => Except.error ("panicked at supervisor.rs: key not found in actor_types")
    | some t =>
      let s1 := if t ∈ s.factories then (spawn_actor s t now).1 else s
      reapDead now
        { s1 with
            pulses := removeNat id s1.pulses
            handles := removeNat id s1.handles
            actorTypes := removeNat id s1.actorTypes }
        rest

/-- Embeds the liveness-tick arm of the supervisor main loop (supervisor.rs
lines 99-126): collect every id whose pulse is older than `now - 3` seconds,
then reap each one in turn. -/
def livenessTick (s : SupState) (now : Nat) : Except String SupState :=
  let deadTimeout := now - 3
  let dead := (s.pulses.filter (fun p => p.2 < deadTimeout)).map (fun p => p.1)
  reapDead now s dead

/- ===== Batched writers (crates/market_data/src/services/...) =====

Each `db_writer` keeps a `buffer` and a `last_flush` instant and loops on a
`tokio::select!`.  The receive arm pushes the payload (for klines, only when
`closed`), then flushes when the size threshold or the elapsed-time threshold
is reached.  All writers except the klines writer also have a timer arm
`_ = time::sleep(d)` that flushes a non-empty buffer when no event arrived
for `d` seconds.  Flushed rows are appended to `persisted`; payloads are
opaque (Nat).  `elapsed` is the seconds since the last flush, supplied per
step. -/

inductive StreamVariant where
  | AggTrade
  | OrderBook
  | Kline
  | MarkPrice
  | ForceOrder
  | OpenInterest
deriving DecidableEq, Repr

/-- Size threshold of the receive-arm flush check, per variant
(`buffer.len() >= n`): aggtrade_service.rs line 104, orderbook_service.rs
line 103, klines_service.rs line 102, markprice_service.rs line 97,
forceorder_service.rs line 101, openinterest_service.rs line 104. -/
def batchSize : StreamVariant → Nat
  | StreamVariant.AggTrade => 1000
  | StreamVariant.OrderBook => 600
  | StreamVariant.Kline => 300
  | StreamVariant.MarkPrice => 300
  | StreamVariant.ForceOrder => 512
  | StreamVariant.OpenInterest => 512

/-- Elapsed-time threshold of the receive-arm flush check, in seconds
(`last_flush.elapsed() >= Duration::from_secs(n)`), same lines as `batchSize`. -/
def flushSecs : StreamVariant → Nat
  | StreamVariant.AggTrade => 10
  | StreamVariant.OrderBook => 5
  | StreamVariant.Kline => 20
  | StreamVariant.MarkPrice => 10
  | StreamVariant.ForceOrder => 10
  | StreamVariant.OpenInterest => 20

/-- The duration of the idle-timer select arm of each `db_writer`, in seconds,
when such an arm exists: `_ = time::sleep(..)` at aggtrade_service.rs line 120
(2000 ms), orderbook_service.rs line 119 (5 s), markprice_service.rs line 113
(20 s), forceorder_service.rs line 117 (5 s), openinterest_service.rs line 120
(10 s).  The select loop of `KlinesService::db_writer` (klines_service.rs
lines 93-118) has a single arm, `result = kline_rx.recv()`, and no timer arm. -/
def idleArm : StreamVariant → Option Nat
  | StreamVariant.AggTrade => some 2
  | StreamVariant.OrderBook => some 5
  | StreamVariant.Kline => none
  | StreamVariant.MarkPrice => some 20
  | StreamVariant.ForceOrder => some 5
  | StreamVariant.OpenInterest => some 10

structure WriterState where
  buffer : List Nat
  persisted : List Nat
deriving DecidableEq, Repr

/-- Embeds the receive arm of `KlinesService::db_writer` (klines_service.rs
lines 95-107): push the kline only when `closed`; then, if the buffer reached
300 rows or 20 seconds elapsed since the last flush, flush the whole buffer
and clear it. -/
def klineRecvStep (elapsed : Nat) (s : WriterState) (k : Nat) (closed : Bool) : WriterState :=
  let buf := if closed then s.buffer ++ [k] else s.buffer
  if 300 ≤ buf.length ∨ 20 ≤ elapsed then
    { buffer := [], persisted := s.persisted ++ buf }
  else
    { buffer := buf, persisted := s.persisted }

/-- A run of the klines receive arm over a trace of (elapsed, payload, closed)
steps, from the empty writer state. -/
def klineRun (trace : List (Nat × Nat × Bool)) : WriterState :=
  trace.foldl (fun s e => klineRecvStep e.1 s e.2.1 e.2.2) { buffer := [], persisted := [] }

/-- Embeds the idle-timer arm of the writers that have one (for example
aggtrade_service.rs lines 120-126): when the timer fires, a non-empty buffer
is flushed and cleared; a writer without a timer arm has no such step
(`none`). -/
def idleStep (v : StreamVariant) (s : WriterState) : Option WriterState :=
  match idleArm v with
  | none => none
  | some _ =>
    some (if s.buffer.isEmpty then s
          else { buffer := [], persisted := s.persisted ++ s.buffer })

/- ===== Websocket read loop (crates/market_data/src/services/market_gateway.rs) =====

The inner read loop of `websocket_connection` matches one inbound frame at a
time.  The transmitted side of the connection is modelled as the list of
frames actually written to the wire.  In the ping arm (lines 166-170) the
source is `let _ = write.send(Message::Pong(pg));` - `SinkExt::send` returns a
lazy future, and binding it to `_` without `.await` drops the future unpolled,
so no frame reaches the sink; the arm then logs and continues the loop. -/

inductive WsFrame where
  | text (s : String)
  | ping (payload : List Nat)
  | pong (payload : List Nat)
  | close
  | wsError
  | other
deriving DecidableEq, Repr

inductive LoopOutcome where
  | continueLoop
  | breakLoop
deriving DecidableEq, Repr

/-- Embeds one iteration of the inner read loop of
`MarketGateway::websocket_connection` (market_gateway.rs lines 148-188),
returning the frames written to the connection after the step and whether the
loop continues.  Text frames are published to the broadcast bus or reported as
an `Error` control message (both continue); the ping arm drops the unawaited
`write.send(Message::Pong(pg))` future, so the written-frame list is
unchanged; close and transport errors break the loop; other frames continue. -/
def readLoopStep (written : List WsFrame) : WsFrame → List WsFrame × LoopOutcome
  | WsFrame.text _ => (written, LoopOutcome.continueLoop)
  | WsFrame.ping _ => (written, LoopOutcome.continueLoop)
  | WsFrame.pong _ => (written, LoopOutcome.continueLoop)
  | WsFrame.close => (written, LoopOutcome.breakLoop)
  | WsFrame.wsError => (written, LoopOutcome.breakLoop)
  | WsFrame.other => (written, LoopOutcome.continueLoop)

/-- Modelled from the spec: the ping handling the specification describes -
"Inbound ping frames are answered with pong" - writes a pong frame carrying
the ping payload to the connection and continues the loop. -/
def readLoopStepSpec (written : List WsFrame) (payload : List Nat) : List WsFrame × LoopOutcome :=
  (written ++ [WsFrame.pong payload], LoopOutcome.continueLoop)

/- ===== Order-book level packing (crates/market_data/src/remote/orderbook_response.rs) =====

`pack_level` iterates the levels in order; for each level it parses price and
quantity to `f32` and appends `price.to_le_bytes()` then
`quantity.to_le_bytes()` to the output.  An `f32` is carried here by its
32-bit IEEE-754 bit pattern (a Nat below 2^32); `to_le_bytes` of that pattern
is its four little-endian bytes, which is bit-exact and involves no
floating-point arithmetic. -/

/-- The four little-endian bytes of a 32-bit word, least significant first
(`f32::to_le_bytes` on the IEEE bit pattern). -/
def u32ToLeBytes (w : Nat) : List Nat :=
  [w % 256, w / 256 % 256, w / 65536 % 256, w / 16777216 % 256]

/-- The 32-bit word of four little-endian bytes (`f32::from_le_bytes`). -/
def u32FromLeBytes (b0 b1 b2 b3 : Nat) : Nat :=
  b0 + 256 * b1 + 65536 * b2 + 16777216 * b3

/-- Embeds `OrderBookCombinedEvent::pack_level` (orderbook_response.rs lines
41-53) after string parsing: each (price, quantity) level contributes the four
little-endian bytes of the price bit pattern followed by the four of the
quantity bit pattern, in level order. -/
def pack_level : List (Nat × Nat) → List Nat
  | [] => []
  | (p, q) :: rest => u32ToLeBytes p ++ u32ToLeBytes q ++ pack_level rest

/-- Modelled from the spec: no standalone side decoder exists under the cited
source (the strategy crate only folds quantities); the specification round-trip
law needs one, so this decoder reads consecutive 8-byte records, the first
four little-endian bytes as the price pattern and the next four as the
quantity pattern, per the stated wire layout. -/
def unpack_level : List Nat → List (Nat × Nat)
  | b0 :: b1 :: b2 :: b3 :: b4 :: b5 :: b6 :: b7 :: rest =>
    (u32FromLeBytes b0 b1 b2 b3, u32FromLeBytes b4 b5 b6 b7) :: unpack_level rest
  | _ => []

/- ===== Open-interest poller (crates/market_data/src/remote/binance_poller.rs) =====

`make_request` fails with the message `HTTP 429: Too Many Requests` or
`HTTP 418: IP has been auto-banned` on those statuses; other failures carry
their own messages.  `fetch_single_open_interest` loops: a rate-limit failure
increments `retry_count` (giving up past `max_retries = 3` with the message
`Max retries exceeded for rate limit`), sleeps `2^retry_count` seconds and
retries; a non-rate-limit failure is rewrapped as
`Failed to fetch open interest for <symbol>: <e>`.
`fetch_all_open_interest` walks the symbols; when a result is an error that
`is_rate_limit_error` recognizes, it breaks out of the pass without pushing
that result; otherwise the result is pushed and the pass continues. -/

/-- Whether `needle` occurs as a contiguous run inside `hay`
(`str::contains`). -/
def hasSub (needle : List Char) : List Char → Bool
  | [] => needle.isEmpty
  | c :: rest => needle.isPrefixOf (c :: rest) || hasSub needle rest

/-- Embeds `BinancePoller::is_rate_limit_error` (binance_poller.rs lines
138-144): the display string of the error is searched for the literal
substrings `429`, `418`, `Too Mani Requests` (sic) and `auto-banned`. -/
def is_rate_limit_error (s : String) : Bool :=
  hasSub ("429").data s.data
    || hasSub ("418").data s.data
    || hasSub ("Too Mani Requests").data s.data
    || hasSub ("auto-banned").data s.data

/-- Outcome of one HTTP attempt of `make_request`: a decoded open-interest
value, or the error message `make_request` fails with. -/
inductive ReqOutcome where
  | ok (oi : Nat)
  | err (msg : String)
deriving DecidableEq, Repr

/-- The retry loop of `fetch_single_open_interest` (binance_poller.rs lines
75-97).  `attempts i` is the outcome of the i-th HTTP attempt.  The structural
argument `n` counts the retries still allowed, so `n = max_retries -
retry_count`: entering with `n = 0` means `retry_count` would exceed
`max_retries = 3`, and the back-off before a retry is `2 ^ retry_count.succ =
2 ^ (4 - n)` seconds.  Returns the result together with the list of back-off
sleeps taken, in order. -/
def fetchSingleGo (symbol : String) (attempts : Nat → ReqOutcome) :
    Nat → Nat → Except String Nat × List Nat
  | i, n =>
    match attempts i with
    | ReqOutcome.ok v => (Except.ok v, [])
    | ReqOutcome.err e =>
      if is_rate_limit_error e then
        match n with
        | 0 => (Except.error ("Max retries exceeded for rate limit"), [])
        | Nat.succ m =>
          let backoff := 2 ^ (4 - Nat.succ m)
          let r := fetchSingleGo symbol attempts (i + 1) m
          (r.1, backoff :: r.2)
      else
        (Except.error ("Failed to fetch open interest for " ++ symbol ++ ": " ++ e), [])

/-- Embeds `BinancePoller::fetch_single_open_interest` (binance_poller.rs
lines 69-98): the retry loop started with `retry_count = 0`, that is with
`max_retries = 3` retries still allowed, at the first attempt. -/
def fetch_single_open_interest (symbol : String) (attempts : Nat → ReqOutcome) :
    Except String Nat × List Nat :=
  fetchSingleGo symbol attempts 0 3

/-- Embeds the per-symbol loop of `BinancePoller::fetch_all_open_interest`
(binance_poller.rs lines 40-64): fetch each symbol in order; when the result
is an error recognized by `is_rate_limit_error`, break out of the pass without
pushing it; otherwise push the result and continue. -/
def fetch_all_open_interest : List (String × (Nat → ReqOutcome)) → List (Except String Nat)
  | [] => []
  | (sym, att) :: rest =>
    let res := (fetch_single_open_interest sym att).1
    match res with
    | Except.error e =>
      if is_rate_limit_error e then []
      else res :: fetch_all_open_interest rest
    | Except.ok _ => res :: fetch_all_open_interest rest

/- ===== Theorems ===== -/

/-- Noon UTC on 22 December 2025, one calendar week before `tsDec29Noon`;
it falls in ISO week 2025-W52. -/
def tsDec22Noon : Int := daysFromCivil 2025 12 22 * 86400 + 43200

/-- Claim C4: for every UTC timestamp t, the previous-ISO-week computation
returns the ISO (year, week) pair of t minus 7 days (calendar subtraction of
604800 seconds, not numeric decrement of the week field); in particular for
2025-12-29 12:00:00 UTC the current ISO week is (2026, 1) and the previous
ISO week is (2025, 52). -/
theorem c4_previous_iso_week :
    (∀ t : Int, get_previous_iso_week_components t = get_date_components (t - 7 * 86400))
    ∧ get_date_components tsDec29Noon = (2026, 1)
    ∧ get_previous_iso_week_components tsDec29Noon = (2025, 52) := by
  refine ⟨fun t => by norm_num [get_previous_iso_week_components], by decide, by decide⟩

/-- The data-manager state at boot during ISO week 2025-W52: the pool rotator
holds the packed key of that week and partition pool 0, the symbol cache and
all partition symbol tables are empty. -/
def c1State0 : DMState :=
  { rot := { storedPacked := current_packed tsDec22Noon, poolId := 0, nextPoolId := 1, spawns := 0 }
    cache := []
    tables := [] }

/-- The first resolution, during week 2025-W52: creates the BTCUSDT row in
partition 0 and caches its id. -/
def c1Run1 : DMState × Nat := get_symbol_id c1State0 tsDec22Noon ("BTCUSDT")

/-- The second resolution, after the wall clock crossed into ISO week 2026-W01:
`get_pool` rotates to partition 1, and the cached id is served. -/
def c1Run2 : DMState × Nat := get_symbol_id c1Run1.1 tsDec29Noon ("BTCUSDT")

/-- Claim C1: the claim requires the in-memory symbol cache to be cleared
whenever rotation is observed, before any further ticker-to-id resolution.
The code never calls `SymbolManager::clear_cache` (its only occurrence in the
repository is its definition), and `DataManager::get_symbol_id` binds the
rotated flag of `get_pool` to `_`.  Failing run: BTCUSDT is resolved to id 1
in partition 0 during week 2025-W52; the next resolution, in week 2026-W01,
rotates to partition 1 (spawns = 1 shows the rotation happened inside the
call) yet still serves id 1 from the uncleaned cache, an id with no symbols
row in the now-current partition 1. -/
theorem c1_cache_not_cleared_on_rotation :
    c1Run1.2 = 1
    ∧ c1Run1.1.rot.poolId = 0
    ∧ c1Run2.1.rot.poolId = 1
    ∧ c1Run2.1.rot.spawns = 1
    ∧ c1Run2.2 = 1
    ∧ c1Run2.1.cache = [("BTCUSDT", 1)]
    ∧ lookupAssoc ("BTCUSDT") (tableOf c1Run2.1 1) = none := by
  decide

/-- The pool state a caller sees during ISO week 2026-W01 when the stored
packed key is still the one of week 2025-W52. -/
def c2S0 : PoolState :=
  { storedPacked := current_packed tsDec22Noon, poolId := 0, nextPoolId := 1, spawns := 0 }

/-- The state after the first concurrent caller completed its write phase on
`c2S0` (it installed pool 1 and emitted the spawn request). -/
def c2S1 : PoolState := (writePhase c2S0 tsDec29Noon).1

/-- Claim C2, counterexample: the claim states the returned flag is true if
and only if the call itself found the stored key stale and installed a fresh
pool.  Interleave two callers A and B during week 2026-W01: both run the read
phase on `c2S0` (both observe the stale key and release the read lock, so
both read phases return `none`); A acquires the write lock first and installs
pool 1; B then runs its write phase on the resulting state `c2S1`, where the
re-check finds the key already fresh - B installs nothing and emits no spawn
(its write phase leaves the state exactly `c2S1`), yet B is still returned
`rotated = true`, because db.rs line 74 returns `true` unconditionally on the
slow path.  So the flag can be true for a call that installed nothing. -/
theorem c2_rotated_flag_counterexample :
    readPhase c2S0 tsDec29Noon = none
    ∧ (writePhase c2S0 tsDec29Noon).2.2 = true
    ∧ c2S1.spawns = 1
    ∧ c2S1.poolId = 1
    ∧ (writePhase c2S1 tsDec29Noon).2.2 = true
    ∧ (writePhase c2S1 tsDec29Noon).1 = c2S1 := by
  decide

/-- Claim C2, amended: `get_pool` returns a cloned handle to the pool that is
current when the call completes; the flag is false exactly when the read-phase
check found the stored packed key fresh, and a false flag leaves the state
untouched; when the flag is true and the call is the one whose write-phase
re-check still found the key stale (in the atomic, uncontended case the two
checks agree), the call installs a fresh pool whose handle differs from the
old one, updates the stored key to the current week, and emits the
archival-worker spawn request exactly once; a slow-path caller whose re-check
finds the key already refreshed returns `rotated = true` without installing
anything.  The hypothesis is the handle-freshness invariant of the model. -/
theorem c2_get_pool_amended (s : PoolState) (t : Int) (hinv : s.poolId < s.nextPoolId) :
    ((get_pool s t).2.1 = (get_pool s t).1.poolId)
    ∧ ((get_pool s t).2.2 = false ↔ s.storedPacked = current_packed t)
    ∧ ((get_pool s t).2.2 = false → (get_pool s t).1 = s)
    ∧ ((get_pool s t).2.2 = true →
        (get_pool s t).1.storedPacked = current_packed t
        ∧ (get_pool s t).1.spawns = s.spawns + 1
        ∧ (get_pool s t).2.1 ≠ s.poolId)
    ∧ (s.storedPacked = current_packed t → writePhase s t = (s, s.poolId, true)) := by
  unfold get_pool readPhase writePhase
  by_cases h : s.storedPacked = current_packed t
  · simp [h]
  · simp [h]
    omega

/-- Witness for `c2_get_pool_amended` at the concrete stale state `c2S0`
during week 2026-W01. -/
theorem c2_get_pool_amended_witness :
    c2S0.poolId < c2S0.nextPoolId
    ∧ (((get_pool c2S0 tsDec29Noon).2.1 = (get_pool c2S0 tsDec29Noon).1.poolId)
       ∧ ((get_pool c2S0 tsDec29Noon).2.2 = false ↔ c2S0.storedPacked = current_packed tsDec29Noon)
       ∧ ((get_pool c2S0 tsDec29Noon).2.2 = false → (get_pool c2S0 tsDec29Noon).1 = c2S0)
       ∧ ((get_pool c2S0 tsDec29Noon).2.2 = true →
           (get_pool c2S0 tsDec29Noon).1.storedPacked = current_packed tsDec29Noon
           ∧ (get_pool c2S0 tsDec29Noon).1.spawns = c2S0.spawns + 1
           ∧ (get_pool c2S0 tsDec29Noon).2.1 ≠ c2S0.poolId)
       ∧ (c2S0.storedPacked = current_packed tsDec29Noon →
           writePhase c2S0 tsDec29Noon = (c2S0, c2S0.poolId, true))) :=
  ⟨by decide, c2_get_pool_amended c2S0 tsDec29Noon (by decide)⟩

/-- The supervisor state reached from boot by handling `Spawn(7)` at instant
0, `Shutdown(7)` at instant 1 and then a late `Heartbeat(7)` at instant 2:
the heartbeat reinserts id 7 into `pulses` although `Shutdown` removed it
from `actor_types`. -/
def c3S3 : SupState :=
  (handleMsg (handleMsg (handleMsg supInit 0 (ControlMsg.Spawn 7)).1
      1 (ControlMsg.Shutdown 7)).1
    2 (ControlMsg.Heartbeat 7)).1

/-- Claim C3: the claim states the liveness-tick handler is total over every
reachable supervisor state, the direct index `actor_types[&invalid_id]`
always succeeding.  The state `c3S3` is reachable (dynamic spawn, graceful
shutdown, then one late heartbeat from the retired actor, which the
`Heartbeat` arm inserts into `pulses` unconditionally); at the tick 8 seconds
later id 7 is collected as expired, `actor_types` has no entry for it, and
the direct `HashMap` index panics - the handler is not total, and the panic
unwinds the supervisor task itself. -/
theorem c3_liveness_tick_panics :
    c3S3.pulses = [(7, 2)]
    ∧ c3S3.actorTypes = []
    ∧ livenessTick c3S3 10
        = Except.error ("panicked at supervisor.rs: key not found in actor_types") :=
  ⟨by decide, by decide, by rfl⟩

/-- Claim C5, counterexample: the claim states the persisted row count is
unchanged whenever a kline with `closed = false` is received.  In the receive
arm the flush check runs after the (skipped) push: with one closed kline
already buffered and more than 20 seconds since the last flush, receiving a
`closed = false` kline flushes that buffered row, so the persisted count
rises from 0 to 1 on a `closed = false` event. -/
theorem c5_closed_false_flush_counterexample :
    (klineRecvStep 25 { buffer := [7], persisted := [] } 9 false).persisted.length = 1
    ∧ ({ buffer := [7], persisted := [] } : WriterState).persisted.length = 0 := by
  decide

theorem klineRecvStep_rows (elapsed : Nat) (s : WriterState) (k : Nat) (closed : Bool) :
    (klineRecvStep elapsed s k closed).persisted ++ (klineRecvStep elapsed s k closed).buffer
      = s.persisted ++ s.buffer ++ (if closed then [k] else []) := by
  unfold klineRecvStep
  cases closed <;> simp <;> split <;> simp

theorem klineRun_rows_from (trace : List (Nat × Nat × Bool)) :
    ∀ s : WriterState,
      (trace.foldl (fun s e => klineRecvStep e.1 s e.2.1 e.2.2) s).persisted
          ++ (trace.foldl (fun s e => klineRecvStep e.1 s e.2.1 e.2.2) s).buffer
        = s.persisted ++ s.buffer
            ++ (trace.filter (fun e => e.2.2)).map (fun e => e.2.1) := by
  induction trace with
  | nil => intro s; simp
  | cons e rest ih =>
    intro s
    have hstep := klineRecvStep_rows e.1 s e.2.1 e.2.2
    cases he : e.2.2 <;>
      simp [List.foldl_cons, ih, he ▸ hstep, he, List.append_assoc]

/-- Claim C5, amended: a `closed = false` kline is never added to the batch
buffer and never persisted - the combined row contents (persisted rows
followed by the buffer) are exactly unchanged by such an event, and over any
trace of received klines the rows held by the writer are exactly the payloads
of the `closed = true` events, in order.  (What the counterexample forces to
change: the arrival of a `closed = false` event may still trigger the
elapsed-time flush of rows buffered from earlier `closed = true` events, so
the persisted count alone is not invariant.) -/
theorem c5_closed_only_amended :
    (∀ (elapsed : Nat) (s : WriterState) (k : Nat),
      (klineRecvStep elapsed s k false).persisted ++ (klineRecvStep elapsed s k false).buffer
        = s.persisted ++ s.buffer)
    ∧ (∀ trace : List (Nat × Nat × Bool),
      (klineRun trace).persisted ++ (klineRun trace).buffer
        = (trace.filter (fun e => e.2.2)).map (fun e => e.2.1)) := by
  constructor
  · intro elapsed s k
    simpa using klineRecvStep_rows elapsed s k false
  · intro trace
    simpa [klineRun] using
      klineRun_rows_from trace { buffer := [], persisted := [] }

/-- Claim C6, counterexample: the claim states every batched-writer variant
has an idle-timer select arm, with an interval between 2 and 20 seconds, that
flushes a non-empty buffer when no event arrives.  The select loop of
`KlinesService::db_writer` (klines_service.rs lines 93-118) has only the
`kline_rx.recv()` arm - no timer arm exists for the Kline variant, so a
non-empty klines buffer is never flushed while no new event arrives. -/
theorem c6_kline_idle_timer_counterexample :
    ¬ (∀ v : StreamVariant, ∃ d : Nat, idleArm v = some d ∧ 2 ≤ d ∧ d ≤ 20) := by
  intro h
  obtain ⟨d, hd, _, _⟩ := h StreamVariant.Kline
  simp [idleArm] at hd

/-- Claim C6, amended: every batched-writer variant except Kline has an
idle-timer select arm with an interval between 2 and 20 seconds (AggTrade 2 s,
OrderBook 5 s, MarkPrice 20 s, ForceOrder 5 s, OpenInterest 10 s), and when
that timer fires with a non-empty buffer the whole buffer is flushed; the
Kline writer has no idle-timer path and flushes only when an event arrives or
its queue closes. -/
theorem c6_idle_timer_amended (v : StreamVariant) (hv : v ≠ StreamVariant.Kline)
    (s : WriterState) (hs : s.buffer ≠ []) :
    ∃ d : Nat, idleArm v = some d ∧ 2 ≤ d ∧ d ≤ 20
      ∧ idleStep v s = some { buffer := [], persisted := s.persisted ++ s.buffer } := by
  have hbuf : s.buffer.isEmpty = false := by
    cases hb : s.buffer with
    | nil => exact absurd hb hs
    | cons a l => simp
  cases v with
  | Kline => exact absurd rfl hv
  | AggTrade => exact ⟨2, by simp [idleArm, idleStep, hbuf]⟩
  | OrderBook => exact ⟨5, by simp [idleArm, idleStep, hbuf]⟩
  | MarkPrice => exact ⟨20, by simp [idleArm, idleStep, hbuf]⟩
  | ForceOrder => exact ⟨5, by simp [idleArm, idleStep, hbuf]⟩
  | OpenInterest => exact ⟨10, by simp [idleArm, idleStep, hbuf]⟩

/-- Witness for `c6_idle_timer_amended`: the AggTrade writer with one buffered
row flushes it when its 2-second idle timer fires. -/
theorem c6_idle_timer_amended_witness :
    (StreamVariant.AggTrade ≠ StreamVariant.Kline)
    ∧ (({ buffer := [3], persisted := [] } : WriterState).buffer ≠ [])
    ∧ ∃ d : Nat, idleArm StreamVariant.AggTrade = some d ∧ 2 ≤ d ∧ d ≤ 20
        ∧ idleStep StreamVariant.AggTrade { buffer := [3], persisted := [] }
            = some { buffer := [],
                     persisted := ({ buffer := [3], persisted := [] } : WriterState).persisted
                       ++ ({ buffer := [3], persisted := [] } : WriterState).buffer } :=
  ⟨by decide, by decide,
   c6_idle_timer_amended StreamVariant.AggTrade (by decide) _ (by decide)⟩

/-- Claim C7: handling `Error(worker_id, message)` refreshes that worker's
last-heartbeat timestamp to the current instant and changes nothing else:
the handle table, actor-type table and factory registry are untouched, and
the handler performs no runtime action (no task abort, no spawn - so no
restart is triggered by the message itself). -/
theorem c7_error_refreshes_pulse_only (s : SupState) (id : Nat) (m : String) (now : Nat) :
    handleMsg s now (ControlMsg.Error id m)
        = ({ s with pulses := insertNat id now s.pulses }, [])
    ∧ (handleMsg s now (ControlMsg.Error id m)).1.handles = s.handles
    ∧ (handleMsg s now (ControlMsg.Error id m)).1.actorTypes = s.actorTypes
    ∧ (handleMsg s now (ControlMsg.Error id m)).1.factories = s.factories
    ∧ (handleMsg s now (ControlMsg.Error id m)).1.nextId = s.nextId
    ∧ (handleMsg s now (ControlMsg.Error id m)).2 = [] :=
  ⟨rfl, rfl, rfl, rfl, rfl, rfl⟩

/-- Claim C8: the claim states every inbound ping frame is answered by a pong
frame with the same payload on the same connection.  The ping arm
(market_gateway.rs lines 166-170) is `let _ = write.send(Message::Pong(pg));`
without `.await`: `SinkExt::send` is a lazy future, binding it to `_` drops
it unpolled and nothing is written to the connection - immediately after, the
arm logs `Ping - Pong message sent to websocket.`, which the actual behavior
contradicts.  Evaluated at a ping with payload [1, 2, 3]: the written-frame
list stays empty (no pong is transmitted) while the read loop does continue;
the spec-modelled arm would have written the pong, and the two differ. -/
theorem c8_ping_pong_never_sent :
    readLoopStep [] (WsFrame.ping [1, 2, 3]) = ([], LoopOutcome.continueLoop)
    ∧ readLoopStepSpec [] [1, 2, 3]
        = ([WsFrame.pong [1, 2, 3]], LoopOutcome.continueLoop)
    ∧ readLoopStep [] (WsFrame.ping [1, 2, 3]) ≠ readLoopStepSpec [] [1, 2, 3] := by
  refine ⟨rfl, rfl, by decide⟩

set_option maxRecDepth 40000

theorem u32_le_roundtrip (w : Nat) (h : w < 4294967296) :
    u32FromLeBytes (w % 256) (w / 256 % 256) (w / 65536 % 256) (w / 16777216 % 256) = w := by
  unfold u32FromLeBytes
  omega

theorem unpack_pack_cons (p q : Nat) (tail : List Nat) :
    unpack_level (u32ToLeBytes p ++ u32ToLeBytes q ++ tail)
      = (u32FromLeBytes (p % 256) (p / 256 % 256) (p / 65536 % 256) (p / 16777216 % 256),
         u32FromLeBytes (q % 256) (q / 256 % 256) (q / 65536 % 256) (q / 16777216 % 256))
        :: unpack_level tail := rfl

/-- Claim C9: encoding one order-book side is the concatenation of one 8-byte
record per level - four little-endian bytes of the f32 price bit pattern
followed by four of the f32 quantity bit pattern - so the byte length is
8 times the level count (160 bytes for 20 levels); and for every sequence of
levels whose bit patterns fit in 32 bits, decoding the encoding returns the
sequence bit-exactly. -/
theorem c9_pack_level_roundtrip (P : List (Nat × Nat))
    (hP : ∀ x ∈ P, x.1 < 4294967296 ∧ x.2 < 4294967296) :
    unpack_level (pack_level P) = P ∧ (pack_level P).length = 8 * P.length := by
  induction P with
  | nil => exact ⟨rfl, rfl⟩
  | cons pq rest ih =>
    obtain ⟨hp, hq⟩ := hP pq (by simp)
    obtain ⟨ih1, ih2⟩ := ih (fun x hx => hP x (by simp [hx]))
    obtain ⟨p, q⟩ := pq
    constructor
    · show unpack_level (u32ToLeBytes p ++ u32ToLeBytes q ++ pack_level rest) = _
      rw [unpack_pack_cons, u32_le_roundtrip p hp, u32_le_roundtrip q hq, ih1]
    · show (u32ToLeBytes p ++ u32ToLeBytes q ++ pack_level rest).length = _
      simp [u32ToLeBytes, ih2, List.length_append]
      ring

/-- A concrete side of 20 levels (bit patterns of 1.0f32 and a small
quantity pattern) for the witness. -/
def c9Side : List (Nat × Nat) := List.replicate 20 (1065353216, 1)

/-- Witness for `c9_pack_level_roundtrip` on a concrete 20-level side:
the encoding is 160 bytes and decodes back bit-exactly. -/
theorem c9_pack_level_roundtrip_witness :
    (∀ x ∈ c9Side, x.1 < 4294967296 ∧ x.2 < 4294967296)
    ∧ (unpack_level (pack_level c9Side) = c9Side
       ∧ (pack_level c9Side).length = 8 * c9Side.length)
    ∧ (pack_level c9Side).length = 160 :=
  ⟨by decide, c9_pack_level_roundtrip c9Side (by decide), by decide⟩

/-- The attempt sequence in which every HTTP request to the open-interest
endpoint is answered with status 429. -/
def all429 : Nat → ReqOutcome := fun _ => ReqOutcome.err ("HTTP 429: Too Many Requests")

/-- An attempt sequence whose requests all succeed with value v. -/
def okAll (v : Nat) : Nat → ReqOutcome := fun _ => ReqOutcome.ok v

/-- Claim C10: the back-off half of the claim holds - a request hitting 429
retries with back-offs of exactly 2, 4, 8 seconds and gives up after the
third retry with `Max retries exceeded for rate limit`.  The skip-the-pass
half fails: `is_rate_limit_error` searches for the substrings `429`, `418`,
`Too Mani Requests` and `auto-banned`, none of which occur in the rewrapped
message, so the `break` in `fetch_all_open_interest` (binance_poller.rs lines
56-61, with its log line `Rate limit detected, stopping further requests`)
never fires on an exhausted-retries result: in a pass over BTCUSDT (whose
requests all hit 429), ETHUSDT and SOLUSDT, the remaining two symbols are
still polled instead of the pass being abandoned. -/
theorem c10_pass_not_abandoned :
    fetch_single_open_interest ("BTCUSDT") all429
        = (Except.error ("Max retries exceeded for rate limit"), [2, 4, 8])
    ∧ is_rate_limit_error ("HTTP 429: Too Many Requests") = true
    ∧ is_rate_limit_error ("Max retries exceeded for rate limit") = false
    ∧ fetch_all_open_interest
          [("BTCUSDT", all429), ("ETHUSDT", okAll 5), ("SOLUSDT", okAll 6)]
        = [Except.error ("Max retries exceeded for rate limit"), Except.ok 5, Except.ok 6] :=
  ⟨rfl, by rfl, by rfl, rfl⟩
